import Mathlib

/-!
Verification of the LoreFit points ledger (SQL migration
`20250101000002_create_user_points_table.sql`), the client-side auth
utilities and validators, and the auth-state hooks, via a shallow
embedding in Lean.
-/

namespace LoreFit

/-! ## Points ledger data model

Embeds the `user_points` table and the JSONB history entries built by
`award_points` / `spend_points`. Timestamps (`NOW()`) are abstracted as
a `Nat` parameter `now`. The JSONB entry for an earned transaction has
keys amount/source/description/timestamp/type; for a spent transaction
it has keys amount/purpose/description/timestamp/type. We record the
source-or-purpose value in the field `label`.
-/

/-- One element of the `points_history` JSONB array. -/
structure HistoryEntry where
  amount : Int
  label : String
  description : String
  timestamp : Nat
  type : String
deriving DecidableEq

/-- A row of `public.user_points`. -/
structure UserPointsRow where
  current_balance : Int
  total_earned : Int
  total_spent : Int
  level : Int
  points_history : List HistoryEntry
  weekly_goal : Int
  updated_at : Nat
deriving DecidableEq

/-- The `user_points` table: a partial map from user id (UUID as string) to row. -/
def Db : Type := String → Option UserPointsRow

/-- Write (insert or overwrite) one row of the table. -/
def dbUpdate (db : Db) (uid : String) (r : UserPointsRow) : Db :=
  fun x => if x = uid then some r else db x

/-- Row inserted by `handle_new_profile_points` (all columns take their
DDL defaults: balance/earned/spent 0, level 1, history empty, weekly goal 100). -/
def initialRow (now : Nat) : UserPointsRow :=
  { current_balance := 0, total_earned := 0, total_spent := 0, level := 1,
    points_history := [], weekly_goal := 100, updated_at := now }

/-- `handle_new_profile_points`: the AFTER INSERT trigger on profiles
inserts a fresh default row; if the row already exists the INSERT
violates the primary key and the transaction aborts (db unchanged). -/
def handle_new_profile_points (db : Db) (uid : String) (now : Nat) : Db :=
  match db uid with
  | none => dbUpdate db uid (initialRow now)
  | some _ => db

/-- plpgsql `IF x < y THEN` over a possibly-NULL x: the branch is taken
only when the comparison yields TRUE (a NULL comparand yields NULL,
which is not TRUE). -/
def sqlLtTrue : Option Int → Int → Bool
  | none, _ => false
  | some b, a => decide (b < a)

/-- `award_points(p_user_id, p_amount, p_source, p_description)`.
Raises an exception (modelled as `Except.error`) when the amount is not
positive; otherwise updates the matching row (if any), appending one
'earned' history entry, and returns the updated table together with
`new_balance` and `new_total_earned` (NULL when no row matched). -/
def award_points (db : Db) (p_user_id : String) (p_amount : Int)
    (p_source : String) (p_description : String) (now : Nat) :
    Except String (Db × Option Int × Option Int) :=
  if p_amount ≤ 0 then
    .error "Points amount must be positive"
  else
    let v_history_entry : HistoryEntry :=
      { amount := p_amount, label := p_source, description := p_description,
        timestamp := now, type := "earned" }
    match db p_user_id with
    | none => .ok (db, none, none)
    | some row =>
        let row' : UserPointsRow :=
          { row with
            current_balance := row.current_balance + p_amount,
            total_earned := row.total_earned + p_amount,
            points_history := row.points_history ++ [v_history_entry],
            updated_at := now }
        .ok (dbUpdate db p_user_id row',
             some row'.current_balance, some row'.total_earned)

/-- `spend_points(p_user_id, p_amount, p_purpose, p_description)`.
Raises when the amount is not positive; reads the current balance
(NULL when no row); if the balance is provably below the amount it
returns `(balance, false)` without mutating; otherwise it deducts, logs
one 'spent' history entry (amount negated) and returns `(new_balance, true)`
-- with a NULL new balance when no row matched the UPDATE. -/
def spend_points (db : Db) (p_user_id : String) (p_amount : Int)
    (p_purpose : String) (p_description : String) (now : Nat) :
    Except String (Db × Option Int × Bool) :=
  if p_amount ≤ 0 then
    .error "Points amount must be positive"
  else
    let v_current_balance : Option Int :=
      (db p_user_id).map (fun r => r.current_balance)
    if sqlLtTrue v_current_balance p_amount then
      .ok (db, v_current_balance, false)
    else
      let v_history_entry : HistoryEntry :=
        { amount := -p_amount, label := p_purpose, description := p_description,
          timestamp := now, type := "spent" }
      match db p_user_id with
      | none => .ok (db, none, true)
      | some row =>
          let row' : UserPointsRow :=
            { row with
              current_balance := row.current_balance - p_amount,
              total_spent := row.total_spent + p_amount,
              points_history := row.points_history ++ [v_history_entry],
              updated_at := now }
          .ok (dbUpdate db p_user_id row', some row'.current_balance, true)

/-! ### Concrete example ledger used by witnesses -/

/-- A concrete ledger row with balance 10, earned 12, spent 2. -/
def rowEx : UserPointsRow :=
  { current_balance := 10, total_earned := 12, total_spent := 2, level := 1,
    points_history := [], weekly_goal := 100, updated_at := 0 }

/-- A concrete table holding only user "u1". -/
def dbEx : Db := fun x => if x = "u1" then some rowEx else none

/-- C1: on a row that exists and a positive amount, `award_points`
adds the amount to the balance and to total_earned, appends exactly one
'earned' entry of that amount, and returns the new balance and total;
when the balance covers the amount, `spend_points` subtracts it from the
balance, adds it to total_spent, appends exactly one 'spent' entry of
the negated amount, and returns the new balance with success true. -/
theorem award_spend_points_correct
    (db : Db) (uid : String) (row : UserPointsRow) (a : Int)
    (s d p d' : String) (now : Nat)
    (hrow : db uid = some row) (hpos : 0 < a) :
    award_points db uid a s d now =
      .ok (dbUpdate db uid
            { row with
              current_balance := row.current_balance + a,
              total_earned := row.total_earned + a,
              points_history := row.points_history ++
                [{ amount := a, label := s, description := d,
                   timestamp := now, type := "earned" }],
              updated_at := now },
           some (row.current_balance + a), some (row.total_earned + a))
    ∧ (a ≤ row.current_balance →
        spend_points db uid a p d' now =
          .ok (dbUpdate db uid
                { row with
                  current_balance := row.current_balance - a,
                  total_spent := row.total_spent + a,
                  points_history := row.points_history ++
                    [{ amount := -a, label := p, description := d',
                       timestamp := now, type := "spent" }],
                  updated_at := now },
               some (row.current_balance - a), true)) := by
  constructor
  · simp [award_points, hrow, not_le.mpr hpos]
  · intro hle
    simp [spend_points, hrow, not_le.mpr hpos, sqlLtTrue, not_lt.mpr hle]

/-- Witness for C1 at a concrete ledger: awarding and spending 5 points
for user "u1" with balance 10. -/
theorem award_spend_points_correct_witness :
    award_points dbEx "u1" 5 "manual" "ran" 7 =
      .ok (dbUpdate dbEx "u1"
            { rowEx with
              current_balance := rowEx.current_balance + 5,
              total_earned := rowEx.total_earned + 5,
              points_history := rowEx.points_history ++
                [{ amount := 5, label := "manual", description := "ran",
                   timestamp := 7, type := "earned" }],
              updated_at := 7 },
           some (rowEx.current_balance + 5), some (rowEx.total_earned + 5))
    ∧ (5 ≤ rowEx.current_balance →
        spend_points dbEx "u1" 5 "story_contribution" "ch1" 7 =
          .ok (dbUpdate dbEx "u1"
                { rowEx with
                  current_balance := rowEx.current_balance - 5,
                  total_spent := rowEx.total_spent + 5,
                  points_history := rowEx.points_history ++
                    [{ amount := -5, label := "story_contribution",
                       description := "ch1", timestamp := 7, type := "spent" }],
                  updated_at := 7 },
               some (rowEx.current_balance - 5), true)) :=
  award_spend_points_correct dbEx "u1" rowEx 5 "manual" "ran"
    "story_contribution" "ch1" 7 rfl (by decide)

/-- C2: when the row exists, the amount is positive and the balance is
below it, `spend_points` returns the unchanged table, the current
balance and success false: no field of the ledger row is touched. -/
theorem spend_points_insufficient
    (db : Db) (uid : String) (row : UserPointsRow) (a : Int)
    (p d : String) (now : Nat)
    (hrow : db uid = some row) (hpos : 0 < a)
    (hlt : row.current_balance < a) :
    spend_points db uid a p d now = .ok (db, some row.current_balance, false) := by
  simp [spend_points, hrow, not_le.mpr hpos, sqlLtTrue, hlt]

/-- Witness for C2: spending 100 from balance 10 fails and changes nothing. -/
theorem spend_points_insufficient_witness :
    spend_points dbEx "u1" 100 "story_contribution" "big" 7 =
      .ok (dbEx, some rowEx.current_balance, false) :=
  spend_points_insufficient dbEx "u1" rowEx 100 "story_contribution" "big" 7
    rfl (by decide) (by decide)

/-- C9: on a user id with no ledger row and a positive amount,
`spend_points` does not report failure: the NULL balance makes the
insufficient-balance test not fire, the UPDATE matches nothing, and the
result is a NULL balance with success true; `award_points` likewise
raises no error and returns NULL values. -/
theorem points_functions_missing_user
    (db : Db) (uid : String) (a : Int) (s p d : String) (now : Nat)
    (hnone : db uid = none) (hpos : 0 < a) :
    spend_points db uid a p d now = .ok (db, none, true)
    ∧ award_points db uid a s d now = .ok (db, none, none) := by
  constructor
  · simp [spend_points, hnone, not_le.mpr hpos, sqlLtTrue]
  · simp [award_points, hnone, not_le.mpr hpos]

/-- Witness for C9: user "ghost" has no row in `dbEx`. -/
theorem points_functions_missing_user_witness :
    spend_points dbEx "ghost" 4 "story_contribution" "x" 7 = .ok (dbEx, none, true)
    ∧ award_points dbEx "ghost" 4 "manual" "x" 7 = .ok (dbEx, none, none) :=
  points_functions_missing_user dbEx "ghost" 4 "manual" "story_contribution" "x" 7
    rfl (by decide)

/-! ### Append-only history and the accounting invariant -/

/-- The history stored at a possibly-absent row (an absent row reads as
the empty history, matching the DDL default `'[]'::jsonb`). -/
def histOf : Option UserPointsRow → List HistoryEntry
  | none => []
  | some r => r.points_history

/-- C4: the points history is append-only. Whatever `award_points` or
`spend_points` does, the history of every row before the call is a
prefix of its history after: at most one entry is appended, exactly one
is appended to an existing target row on the mutating paths, and the
insufficient-balance path of `spend_points` leaves the table untouched;
the initialization trigger never shortens a history either. -/
theorem points_history_append_only
    (db : Db) (uid x : String) (a : Int) (s p d : String) (now : Nat) :
    (∀ db' nb te, award_points db uid a s d now = Except.ok (db', nb, te) →
        (∃ t, t.length ≤ 1 ∧ histOf (db' x) = histOf (db x) ++ t)
        ∧ (∀ r, db uid = some r →
            ∃ e, histOf (db' uid) = histOf (db uid) ++ [e]))
    ∧ (∀ db' nb ok, spend_points db uid a p d now = Except.ok (db', nb, ok) →
        (∃ t, t.length ≤ 1 ∧ histOf (db' x) = histOf (db x) ++ t)
        ∧ (ok = false → db' = db)
        ∧ (ok = true → ∀ r, db uid = some r →
            ∃ e, histOf (db' uid) = histOf (db uid) ++ [e]))
    ∧ histOf (handle_new_profile_points db uid now x) = histOf (db x) ++ [] := by
  refine ⟨?_, ?_, ?_⟩
  · intro db' nb te h
    by_cases ha : a ≤ 0
    · simp [award_points, ha] at h
    · cases hrow : db uid with
      | none =>
        simp [award_points, ha, hrow] at h
        obtain ⟨hdb, -, -⟩ := h
        subst hdb
        refine ⟨⟨[], by simp, by simp⟩, ?_⟩
        intro r hr
        simp [hrow] at hr
      | some row =>
        simp [award_points, ha, hrow] at h
        obtain ⟨hdb, -, -⟩ := h
        subst hdb
        constructor
        · by_cases hx : x = uid
          · subst hx
            refine ⟨[{ amount := a, label := s, description := d,
                       timestamp := now, type := "earned" }], by simp, ?_⟩
            simp [dbUpdate, histOf, hrow]
          · refine ⟨[], by simp, ?_⟩
            simp [dbUpdate, hx]
        · intro r hr
          refine ⟨{ amount := a, label := s, description := d,
                    timestamp := now, type := "earned" }, ?_⟩
          simp [dbUpdate, histOf, hrow]
  · intro db' nb ok h
    by_cases ha : a ≤ 0
    · simp [spend_points, ha] at h
    · cases hrow : db uid with
      | none =>
        simp [spend_points, ha, hrow, sqlLtTrue] at h
        obtain ⟨hdb, -, hok⟩ := h
        subst hdb
        refine ⟨⟨[], by simp, by simp⟩, fun _ => rfl, ?_⟩
        intro _ r hr
        simp [hrow] at hr
      | some row =>
        by_cases hlt : row.current_balance < a
        · simp [spend_points, ha, hrow, sqlLtTrue, hlt] at h
          obtain ⟨hdb, -, hok⟩ := h
          subst hdb
          refine ⟨⟨[], by simp, by simp⟩, fun _ => rfl, ?_⟩
          intro ht
          simp [ht] at hok
        · simp [spend_points, ha, hrow, sqlLtTrue, hlt] at h
          obtain ⟨hdb, -, hok⟩ := h
          subst hdb
          refine ⟨?_, ?_, ?_⟩
          · by_cases hx : x = uid
            · subst hx
              refine ⟨[{ amount := -a, label := p, description := d,
                         timestamp := now, type := "spent" }], by simp, ?_⟩
              simp [dbUpdate, histOf, hrow]
            · refine ⟨[], by simp, ?_⟩
              simp [dbUpdate, hx]
          · intro hf
            simp [hf] at hok
          · intro _ r hr
            refine ⟨{ amount := -a, label := p, description := d,
                      timestamp := now, type := "spent" }, ?_⟩
            simp [dbUpdate, histOf, hrow]
  · cases hrow : db uid with
    | none =>
      by_cases hx : x = uid
      · subst hx
        simp [handle_new_profile_points, hrow, dbUpdate, histOf, initialRow]
      · simp [handle_new_profile_points, hrow, dbUpdate, hx]
    | some row =>
      simp [handle_new_profile_points, hrow]

/-- Witness for C4: awarding 5 points to "u1" in the concrete ledger
appends exactly one entry to its (empty) history. -/
theorem points_history_append_only_witness :
    (∃ t, t.length ≤ 1 ∧
      histOf ((dbUpdate dbEx "u1"
        { rowEx with
          current_balance := rowEx.current_balance + 5,
          total_earned := rowEx.total_earned + 5,
          points_history := rowEx.points_history ++
            [{ amount := 5, label := "manual", description := "ran",
               timestamp := 7, type := "earned" }],
          updated_at := 7 }) "u1") = histOf (dbEx "u1") ++ t)
    ∧ (∀ r, dbEx "u1" = some r →
        ∃ e, histOf ((dbUpdate dbEx "u1"
          { rowEx with
            current_balance := rowEx.current_balance + 5,
            total_earned := rowEx.total_earned + 5,
            points_history := rowEx.points_history ++
              [{ amount := 5, label := "manual", description := "ran",
                 timestamp := 7, type := "earned" }],
            updated_at := 7 }) "u1") = histOf (dbEx "u1") ++ [e]) :=
  (points_history_append_only dbEx "u1" "u1" 5 "manual" "story_contribution"
    "ran" 7).1 _ _ _ rfl

/-- Accounting invariant of one ledger row: the balance is earned minus
spent and all three counters are non-negative (the table's CHECK
constraints plus the derived balance equation). -/
def validRow (r : UserPointsRow) : Prop :=
  r.current_balance = r.total_earned - r.total_spent
  ∧ 0 ≤ r.current_balance ∧ 0 ≤ r.total_earned ∧ 0 ≤ r.total_spent

instance (r : UserPointsRow) : Decidable (validRow r) := by
  unfold validRow
  infer_instance

/-- The accounting invariant for a whole table. -/
def validDb (db : Db) : Prop :=
  ∀ x r, db x = some r → validRow r

/-- C8: the accounting invariant holds on the row created by
`handle_new_profile_points` (all counters zero) and is preserved by the
trigger and by every non-raising execution of `award_points` and of
`spend_points`, on the success and the insufficient-balance path alike. -/
theorem ledger_accounting_invariant :
    (∀ now, validRow (initialRow now))
    ∧ (∀ (db : Db) uid a s d now db' nb te, validDb db →
        award_points db uid a s d now = Except.ok (db', nb, te) → validDb db')
    ∧ (∀ (db : Db) uid a p d now db' nb ok, validDb db →
        spend_points db uid a p d now = Except.ok (db', nb, ok) → validDb db')
    ∧ (∀ (db : Db) uid now, validDb db →
        validDb (handle_new_profile_points db uid now)) := by
  refine ⟨fun now => by simp [validRow, initialRow], ?_, ?_, ?_⟩
  · intro db uid a s d now db' nb te hdb h
    by_cases ha : a ≤ 0
    · simp [award_points, ha] at h
    · cases hrow : db uid with
      | none =>
        simp [award_points, ha, hrow] at h
        obtain ⟨h1, -, -⟩ := h
        subst h1
        exact hdb
      | some row =>
        simp [award_points, ha, hrow] at h
        obtain ⟨h1, -, -⟩ := h
        subst h1
        intro x r hx
        by_cases hxu : x = uid
        · subst hxu
          simp [dbUpdate] at hx
          subst hx
          have hv := hdb x row hrow
          obtain ⟨hb, h0, h1, h2⟩ := hv
          simp only [validRow]
          omega
        · simp [dbUpdate, hxu] at hx
          exact hdb x r hx
  · intro db uid a p d now db' nb ok hdb h
    by_cases ha : a ≤ 0
    · simp [spend_points, ha] at h
    · cases hrow : db uid with
      | none =>
        simp [spend_points, ha, hrow, sqlLtTrue] at h
        obtain ⟨h1, -, -⟩ := h
        subst h1
        exact hdb
      | some row =>
        by_cases hlt : row.current_balance < a
        · simp [spend_points, ha, hrow, sqlLtTrue, hlt] at h
          obtain ⟨h1, -, -⟩ := h
          subst h1
          exact hdb
        · simp [spend_points, ha, hrow, sqlLtTrue, hlt] at h
          obtain ⟨h1, -, -⟩ := h
          subst h1
          intro x r hx
          by_cases hxu : x = uid
          · subst hxu
            simp [dbUpdate] at hx
            subst hx
            have hv := hdb x row hrow
            obtain ⟨hb, h0, h1, h2⟩ := hv
            simp only [validRow]
            omega
          · simp [dbUpdate, hxu] at hx
            exact hdb x r hx
  · intro db uid now hdb
    intro x r hx
    unfold handle_new_profile_points at hx
    cases hrow : db uid with
    | none =>
      rw [hrow] at hx
      by_cases hxu : x = uid
      · subst hxu
        simp [dbUpdate] at hx
        subst hx
        simp [validRow, initialRow]
      · simp [dbUpdate, hxu] at hx
        exact hdb x r hx
    | some row =>
      rw [hrow] at hx
      exact hdb x r hx

/-- The concrete ledger `dbEx` satisfies the accounting invariant. -/
theorem validDb_dbEx : validDb dbEx := by
  intro x r hx
  by_cases h1 : x = "u1"
  · subst h1
    simp [dbEx] at hx
    subst hx
    decide
  · simp [dbEx, h1] at hx

/-- Witness for C8: the freshly initialized row is valid and the
trigger applied to the concrete valid ledger yields a valid ledger. -/
theorem ledger_accounting_invariant_witness :
    validRow (initialRow 3)
    ∧ validDb (handle_new_profile_points dbEx "u2" 3) :=
  ⟨ledger_accounting_invariant.1 3,
   ledger_accounting_invariant.2.2.2 dbEx "u2" 3 validDb_dbEx⟩

/-! ### Row-level security on `user_points`

The four policies of the migration, parameterized by the client
identity (none of the policy expressions mentions it) and the row:
SELECT `USING (true)`, INSERT `WITH CHECK (false)`, UPDATE
`USING (false) WITH CHECK (false)`. -/

/-- SELECT policy: `USING (true)`. -/
def selectUsing (_client : String) (_r : UserPointsRow) : Bool := true

/-- INSERT policy: `WITH CHECK (false)`. -/
def insertCheck (_client : String) (_r : UserPointsRow) : Bool := false

/-- UPDATE policy, row filter: `USING (false)`. -/
def updateUsing (_client : String) (_r : UserPointsRow) : Bool := false

/-- UPDATE policy, new-row check: `WITH CHECK (false)`. -/
def updateCheck (_client : String) (_r : UserPointsRow) : Bool := false

/-- The operations the schema defines on the `user_points` table: the
two SECURITY DEFINER functions, the initialization trigger, and direct
client INSERT/UPDATE attempts subject to the RLS policies. -/
inductive LedgerOp where
  | award (uid : String) (amount : Int) (source description : String) (now : Nat)
  | spend (uid : String) (amount : Int) (purpose description : String) (now : Nat)
  | initPoints (uid : String) (now : Nat)
  | clientInsert (client uid : String) (r : UserPointsRow)
  | clientUpdate (client uid : String) (r : UserPointsRow)

/-- Effect of one operation on the table. A raising function call
aborts its transaction and leaves the table unchanged; a client INSERT
goes through only if the INSERT policy accepts the new row; a client
UPDATE rewrites a row only if the UPDATE policy's USING clause admits
the existing row and its WITH CHECK clause admits the new one. -/
def applyOp : LedgerOp → Db → Db
  | .award uid a s d now, db =>
      match award_points db uid a s d now with
      | .ok (db', _, _) => db'
      | .error _ => db
  | .spend uid a p d now, db =>
      match spend_points db uid a p d now with
      | .ok (db', _, _) => db'
      | .error _ => db
  | .initPoints uid now, db => handle_new_profile_points db uid now
  | .clientInsert c uid r, db =>
      if insertCheck c r then dbUpdate db uid r else db
  | .clientUpdate c uid r, db =>
      match db uid with
      | none => db
      | some old =>
          if updateUsing c old && updateCheck c r then dbUpdate db uid r else db

/-- Marks the operations performed by the SECURITY DEFINER functions or
the initialization trigger, as opposed to direct client writes. -/
def isSystemOp : LedgerOp → Bool
  | .award _ _ _ _ _ => true
  | .spend _ _ _ _ _ => true
  | .initPoints _ _ => true
  | .clientInsert _ _ _ => false
  | .clientUpdate _ _ _ => false

/-- C3: every client may SELECT every row, no client may directly
INSERT or UPDATE any `user_points` row, and consequently any operation
that actually changes the table is `award_points`, `spend_points` or
the `handle_new_profile_points` trigger. -/
theorem user_points_rls_no_client_writes :
    (∀ c r, selectUsing c r = true)
    ∧ (∀ c r, insertCheck c r = false)
    ∧ (∀ c r, updateUsing c r = false ∧ updateCheck c r = false)
    ∧ (∀ (op : LedgerOp) (db : Db), applyOp op db ≠ db → isSystemOp op = true) := by
  refine ⟨fun c r => rfl, fun c r => rfl, fun c r => ⟨rfl, rfl⟩, ?_⟩
  intro op db hne
  cases op with
  | award uid a s d now => rfl
  | spend uid a p d now => rfl
  | initPoints uid now => rfl
  | clientInsert c uid r =>
      exact absurd (by simp [applyOp, insertCheck]) hne
  | clientUpdate c uid r =>
      refine absurd ?_ hne
      simp only [applyOp]
      cases db uid with
      | none => rfl
      | some old => simp [updateUsing]

/-- Witness for C3: awarding 5 points to "u1" does change the concrete
table (its balance moves from 10 to 15), and is a system operation. -/
theorem user_points_rls_no_client_writes_witness :
    isSystemOp (LedgerOp.award "u1" 5 "manual" "ran" 7) = true :=
  user_points_rls_no_client_writes.2.2.2 (LedgerOp.award "u1" 5 "manual" "ran" 7)
    dbEx (fun h => absurd (congrFun h "u1") (by decide))

/-! ## Client-side format validators

Embeds `isValidEmail`, `validatePassword`, `validateUsername` from the
auth utilities. JS strings are modelled as Lean strings (sequences of
code points); the character classes of the regexes are embedded
literally. The email regex is embedded as a backtracking matcher
with the same shape as the pattern. -/

/-- The character set of the JS regex class `\s` (ECMAScript
WhiteSpace plus LineTerminator): tab, line feed, vertical tab, form
feed, carriage return, space, no-break space, the Unicode
space-separator category, the line and paragraph separators, and the
byte-order mark. -/
def jsWhitespace (c : Char) : Bool :=
  c == '\t' || c == '\n' || c == '\u000B' || c == '\u000C' || c == '\r'
  || c == ' ' || c == '\u00A0' || c == '\u1680'
  || ('\u2000' ≤ c && c ≤ '\u200A')
  || c == '\u2028' || c == '\u2029' || c == '\u202F' || c == '\u205F'
  || c == '\u3000' || c == '\uFEFF'

/-- A character matched by the regex class of `[^\s@]`. -/
def emailChar (c : Char) : Bool := !jsWhitespace c && c != '@'

/-- Matches the regex fragment of one-or-more `emailChar`s followed by
a continuation (with backtracking over where the run of chars stops). -/
def plusThen (k : List Char → Bool) : List Char → Bool
  | [] => false
  | c :: rest => emailChar c && (k rest || plusThen k rest)

/-- Matches one-or-more `emailChar`s consuming the whole input. -/
def plusOnly (cs : List Char) : Bool := !cs.isEmpty && cs.all emailChar

/-- Matches a literal dot followed by the final run of `emailChar`s. -/
def matchDotPart (cs : List Char) : Bool :=
  match cs with
  | [] => false
  | c :: rest => c == '.' && plusOnly rest

/-- Matches a literal at-sign, then `emailChar`s, then `matchDotPart`. -/
def matchAtPart (cs : List Char) : Bool :=
  match cs with
  | [] => false
  | c :: rest => c == '@' && plusThen matchDotPart rest

/-- `isValidEmail`: tests the anchored regex of one-or-more non-space
non-at characters, an at-sign, one-or-more such characters, a dot, and
one-or-more such characters. -/
def isValidEmail (email : String) : Bool := plusThen matchAtPart email.toList

/-- Result record of the two validators (`valid` flag plus optional message). -/
structure ValidationResult where
  valid : Bool
  message : Option String
deriving DecidableEq

/-- A character matched by the regex class of `[a-zA-Z0-9_]`. -/
def usernameChar (c : Char) : Bool := c.isAlpha || c.isDigit || c == '_'

/-- The anchored test of the username regex: nonempty and every
character in the class. -/
def matchesUsernamePattern (u : String) : Bool :=
  !u.toList.isEmpty && u.toList.all usernameChar

/-- `validateUsername`: length in 3..20, then only letters, digits and
underscores; first failing rule yields its message. -/
def validateUsername (username : String) : ValidationResult :=
  if username.length < 3 then
    ⟨false, some "Username must be at least 3 characters"⟩
  else if username.length > 20 then
    ⟨false, some "Username must be no more than 20 characters"⟩
  else if !matchesUsernamePattern username then
    ⟨false, some "Username can only contain letters, numbers, and underscores"⟩
  else ⟨true, none⟩

/-- `validatePassword`: length at least 8, then at least one uppercase,
one lowercase, one digit; first failing rule yields its message. -/
def validatePassword (password : String) : ValidationResult :=
  if password.length < 8 then
    ⟨false, some "Password must be at least 8 characters"⟩
  else if !password.toList.any Char.isUpper then
    ⟨false, some "Password must contain at least one uppercase letter"⟩
  else if !password.toList.any Char.isLower then
    ⟨false, some "Password must contain at least one lowercase letter"⟩
  else if !password.toList.any Char.isDigit then
    ⟨false, some "Password must contain at least one number"⟩
  else ⟨true, none⟩

example : isValidEmail "a@b.c" = true := by decide
example : isValidEmail "a\u000Bb@c.d" = false := by decide
example : isValidEmail "a\u00A0b@c.d" = false := by decide
example : isValidEmail "a@b@c.d" = false := by decide
example : isValidEmail "a@b.c.d" = true := by decide
example : isValidEmail "a@b" = false := by decide
example : (validateUsername "ab").valid = false := by decide
example : (validateUsername "good_name3").valid = true := by decide
example : (validatePassword "Passw0rd").valid = true := by decide
example : (validatePassword "password1").valid = false := by decide

theorem toList_length (u : String) : u.toList.length = u.length := rfl

theorem plusThen_iff (k : List Char → Bool) (cs : List Char) :
    plusThen k cs = true ↔
      ∃ a rest, cs = a ++ rest ∧ a ≠ [] ∧
        (∀ c ∈ a, emailChar c = true) ∧ k rest = true := by
  induction cs with
  | nil =>
    simp only [plusThen, Bool.false_eq_true, false_iff]
    rintro ⟨a, rest, heq, hne, -, -⟩
    exact hne (List.append_eq_nil.mp heq.symm).1
  | cons c cs ih =>
    simp only [plusThen, Bool.and_eq_true, Bool.or_eq_true]
    constructor
    · rintro ⟨hc, h | h⟩
      · exact ⟨[c], cs, rfl, by simp, by simpa using hc, h⟩
      · obtain ⟨a, rest, heq, hne, hall, hk⟩ := ih.mp h
        refine ⟨c :: a, rest, by simp [heq], by simp, ?_, hk⟩
        intro x hx
        rcases List.mem_cons.mp hx with h1 | h2
        · exact h1 ▸ hc
        · exact hall x h2
    · rintro ⟨a, rest, heq, hne, hall, hk⟩
      cases a with
      | nil => exact absurd rfl hne
      | cons a0 a' =>
        simp only [List.cons_append, List.cons.injEq] at heq
        obtain ⟨hca, hcs⟩ := heq
        subst hca
        refine ⟨hall c (by simp), ?_⟩
        cases a' with
        | nil =>
          simp only [List.nil_append] at hcs
          exact Or.inl (hcs ▸ hk)
        | cons a1 a'' =>
          refine Or.inr (ih.mpr ⟨a1 :: a'', rest, hcs, by simp, ?_, hk⟩)
          intro x hx
          exact hall x (List.mem_cons_of_mem _ hx)

theorem matchAtPart_iff (cs : List Char) :
    matchAtPart cs = true ↔
      ∃ rest, cs = '@' :: rest ∧ plusThen matchDotPart rest = true := by
  cases cs with
  | nil => simp [matchAtPart]
  | cons c rest =>
    simp only [matchAtPart, Bool.and_eq_true, beq_iff_eq]
    constructor
    · rintro ⟨hc, h⟩
      exact ⟨rest, by rw [hc], h⟩
    · rintro ⟨rest2, heq, h⟩
      simp only [List.cons.injEq] at heq
      exact ⟨heq.1, heq.2 ▸ h⟩

theorem matchDotPart_iff (cs : List Char) :
    matchDotPart cs = true ↔
      ∃ rest, cs = '.' :: rest ∧ rest ≠ [] ∧ (∀ c ∈ rest, emailChar c = true) := by
  cases cs with
  | nil => simp [matchDotPart]
  | cons c rest =>
    simp only [matchDotPart, plusOnly, Bool.and_eq_true, beq_iff_eq,
      Bool.not_eq_true', List.isEmpty_eq_false, List.all_eq_true]
    constructor
    · rintro ⟨hc, hne, hall⟩
      exact ⟨rest, by rw [hc], hne, hall⟩
    · rintro ⟨rest2, heq, hne, hall⟩
      simp only [List.cons.injEq] at heq
      exact ⟨heq.1, heq.2 ▸ hne, heq.2 ▸ hall⟩

theorem emailChar_iff (c : Char) :
    emailChar c = true ↔ (jsWhitespace c = false ∧ c ≠ '@') := by
  simp [emailChar]

theorem isValidEmail_iff (e : String) :
    isValidEmail e = true ↔
      ∃ a b c : List Char, e.toList = a ++ '@' :: (b ++ '.' :: c) ∧
        a ≠ [] ∧ b ≠ [] ∧ c ≠ [] ∧
        (∀ ch ∈ a, jsWhitespace ch = false ∧ ch ≠ '@')
        ∧ (∀ ch ∈ b, jsWhitespace ch = false ∧ ch ≠ '@')
        ∧ (∀ ch ∈ c, jsWhitespace ch = false ∧ ch ≠ '@') := by
  unfold isValidEmail
  rw [plusThen_iff]
  constructor
  · rintro ⟨a, rest, heq, hane, haall, hat⟩
    obtain ⟨rest2, hr2, hdot⟩ := (matchAtPart_iff rest).mp hat
    obtain ⟨b, rest3, hr3, hbne, hball, hmd⟩ := (plusThen_iff _ rest2).mp hdot
    obtain ⟨c, hc, hcne, hcall⟩ := (matchDotPart_iff rest3).mp hmd
    exact ⟨a, b, c, by rw [heq, hr2, hr3, hc], hane, hbne, hcne,
      fun ch h => (emailChar_iff ch).mp (haall ch h),
      fun ch h => (emailChar_iff ch).mp (hball ch h),
      fun ch h => (emailChar_iff ch).mp (hcall ch h)⟩
  · rintro ⟨a, b, c, heq, hane, hbne, hcne, haall, hball, hcall⟩
    refine ⟨a, '@' :: (b ++ '.' :: c), heq, hane,
      fun ch h => (emailChar_iff ch).mpr (haall ch h), ?_⟩
    rw [matchAtPart_iff]
    refine ⟨b ++ '.' :: c, rfl, ?_⟩
    rw [plusThen_iff]
    refine ⟨b, '.' :: c, rfl, hbne,
      fun ch h => (emailChar_iff ch).mpr (hball ch h), ?_⟩
    rw [matchDotPart_iff]
    exact ⟨c, rfl, hcne, fun ch h => (emailChar_iff ch).mpr (hcall ch h)⟩

theorem usernameChar_iff (c : Char) :
    usernameChar c = true ↔
      (('a' ≤ c ∧ c ≤ 'z') ∨ ('A' ≤ c ∧ c ≤ 'Z') ∨ ('0' ≤ c ∧ c ≤ '9') ∨ c = '_') := by
  simp [usernameChar, Char.isAlpha, Char.isUpper, Char.isLower, Char.isDigit,
    Char.le_def, beq_iff_eq]
  tauto

theorem matchesUsernamePattern_iff (u : String) :
    matchesUsernamePattern u = true ↔
      (u.toList ≠ [] ∧ ∀ c ∈ u.toList,
        (('a' ≤ c ∧ c ≤ 'z') ∨ ('A' ≤ c ∧ c ≤ 'Z') ∨ ('0' ≤ c ∧ c ≤ '9') ∨ c = '_')) := by
  simp [matchesUsernamePattern, List.all_eq_true, usernameChar_iff,
    Bool.not_eq_true', List.isEmpty_eq_false]

theorem isUpper_iff (c : Char) : c.isUpper = true ↔ ('A' ≤ c ∧ c ≤ 'Z') := by
  simp [Char.isUpper, Char.le_def]

theorem isLower_iff (c : Char) : c.isLower = true ↔ ('a' ≤ c ∧ c ≤ 'z') := by
  simp [Char.isLower, Char.le_def]

theorem isDigit_iff (c : Char) : c.isDigit = true ↔ ('0' ≤ c ∧ c ≤ '9') := by
  simp [Char.isDigit, Char.le_def]

theorem validateUsername_valid_iff (u : String) :
    (validateUsername u).valid = true ↔
      (3 ≤ u.length ∧ u.length ≤ 20 ∧
        ∀ c ∈ u.toList,
          (('a' ≤ c ∧ c ≤ 'z') ∨ ('A' ≤ c ∧ c ≤ 'Z') ∨ ('0' ≤ c ∧ c ≤ '9') ∨ c = '_')) := by
  unfold validateUsername
  split_ifs with h1 h2 h3
  · simp only [show (false : Bool) ≠ true from by decide, false_iff]
    rintro ⟨ha, -, -⟩
    omega
  · simp only [show (false : Bool) ≠ true from by decide, false_iff]
    rintro ⟨-, hb, -⟩
    omega
  · simp only [show (false : Bool) ≠ true from by decide, false_iff]
    rintro ⟨ha, -, hall⟩
    have hne : u.toList ≠ [] := by
      intro hnil
      have h0 : u.toList.length = 0 := by rw [hnil]; rfl
      rw [toList_length] at h0
      omega
    have hm : matchesUsernamePattern u = true :=
      (matchesUsernamePattern_iff u).mpr ⟨hne, hall⟩
    simp [hm] at h3
  · simp only [true_iff]
    have hm : matchesUsernamePattern u = true := by simpa using h3
    exact ⟨by omega, by omega, ((matchesUsernamePattern_iff u).mp hm).2⟩

theorem validatePassword_valid_iff (pw : String) :
    (validatePassword pw).valid = true ↔
      (8 ≤ pw.length ∧ (∃ c ∈ pw.toList, 'A' ≤ c ∧ c ≤ 'Z')
        ∧ (∃ c ∈ pw.toList, 'a' ≤ c ∧ c ≤ 'z')
        ∧ (∃ c ∈ pw.toList, '0' ≤ c ∧ c ≤ '9')) := by
  unfold validatePassword
  split_ifs with h1 h2 h3 h4
  · simp only [show (false : Bool) ≠ true from by decide, false_iff]
    rintro ⟨ha, -, -, -⟩
    omega
  · simp only [show (false : Bool) ≠ true from by decide, false_iff]
    rintro ⟨-, ⟨c, hc, hcr⟩, -, -⟩
    have hany : pw.toList.any Char.isUpper = true :=
      List.any_eq_true.mpr ⟨c, hc, (isUpper_iff c).mpr hcr⟩
    rw [Bool.not_eq_true'] at h2
    rw [hany] at h2
    cases h2
  · simp only [show (false : Bool) ≠ true from by decide, false_iff]
    rintro ⟨-, -, ⟨c, hc, hcr⟩, -⟩
    have hany : pw.toList.any Char.isLower = true :=
      List.any_eq_true.mpr ⟨c, hc, (isLower_iff c).mpr hcr⟩
    rw [Bool.not_eq_true'] at h3
    rw [hany] at h3
    cases h3
  · simp only [show (false : Bool) ≠ true from by decide, false_iff]
    rintro ⟨-, -, -, c, hc, hcr⟩
    have hany : pw.toList.any Char.isDigit = true :=
      List.any_eq_true.mpr ⟨c, hc, (isDigit_iff c).mpr hcr⟩
    rw [Bool.not_eq_true'] at h4
    rw [hany] at h4
    cases h4
  · simp only [true_iff]
    have hu : pw.toList.any Char.isUpper = true := by simpa using h2
    have hl : pw.toList.any Char.isLower = true := by simpa using h3
    have hd : pw.toList.any Char.isDigit = true := by simpa using h4
    obtain ⟨c1, hc1, hr1⟩ := List.any_eq_true.mp hu
    obtain ⟨c2, hc2, hr2⟩ := List.any_eq_true.mp hl
    obtain ⟨c3, hc3, hr3⟩ := List.any_eq_true.mp hd
    exact ⟨by omega, ⟨c1, hc1, (isUpper_iff c1).mp hr1⟩,
      ⟨c2, hc2, (isLower_iff c2).mp hr2⟩, ⟨c3, hc3, (isDigit_iff c3).mp hr3⟩⟩

/-- C6: the validators accept exactly the well-formed inputs.
`validateUsername` is valid iff the length is in 3..20 and every
character is an ASCII letter, digit or underscore; `validatePassword`
is valid iff the length is at least 8 and the password contains an
uppercase letter, a lowercase letter and a digit; `isValidEmail` holds
iff the string decomposes as nonempty runs of non-whitespace-non-at
characters around a literal at-sign and a literal dot; and each
validator reports the specific message of the first failed rule. -/
theorem validators_characterize (u pw e : String) :
    ((validateUsername u).valid = true ↔
      (3 ≤ u.length ∧ u.length ≤ 20 ∧
        ∀ c ∈ u.toList,
          (('a' ≤ c ∧ c ≤ 'z') ∨ ('A' ≤ c ∧ c ≤ 'Z') ∨ ('0' ≤ c ∧ c ≤ '9') ∨ c = '_')))
    ∧ (u.length < 3 →
        validateUsername u = ⟨false, some "Username must be at least 3 characters"⟩)
    ∧ (3 ≤ u.length → 20 < u.length →
        validateUsername u = ⟨false, some "Username must be no more than 20 characters"⟩)
    ∧ (3 ≤ u.length → u.length ≤ 20 →
        (¬ ∀ c ∈ u.toList,
          (('a' ≤ c ∧ c ≤ 'z') ∨ ('A' ≤ c ∧ c ≤ 'Z') ∨ ('0' ≤ c ∧ c ≤ '9') ∨ c = '_')) →
        validateUsername u =
          ⟨false, some "Username can only contain letters, numbers, and underscores"⟩)
    ∧ ((validatePassword pw).valid = true ↔
      (8 ≤ pw.length ∧ (∃ c ∈ pw.toList, 'A' ≤ c ∧ c ≤ 'Z')
        ∧ (∃ c ∈ pw.toList, 'a' ≤ c ∧ c ≤ 'z')
        ∧ (∃ c ∈ pw.toList, '0' ≤ c ∧ c ≤ '9')))
    ∧ (pw.length < 8 →
        validatePassword pw = ⟨false, some "Password must be at least 8 characters"⟩)
    ∧ (8 ≤ pw.length → (¬ ∃ c ∈ pw.toList, 'A' ≤ c ∧ c ≤ 'Z') →
        validatePassword pw =
          ⟨false, some "Password must contain at least one uppercase letter"⟩)
    ∧ (8 ≤ pw.length → (∃ c ∈ pw.toList, 'A' ≤ c ∧ c ≤ 'Z') →
        (¬ ∃ c ∈ pw.toList, 'a' ≤ c ∧ c ≤ 'z') →
        validatePassword pw =
          ⟨false, some "Password must contain at least one lowercase letter"⟩)
    ∧ (8 ≤ pw.length → (∃ c ∈ pw.toList, 'A' ≤ c ∧ c ≤ 'Z') →
        (∃ c ∈ pw.toList, 'a' ≤ c ∧ c ≤ 'z') →
        (¬ ∃ c ∈ pw.toList, '0' ≤ c ∧ c ≤ '9') →
        validatePassword pw =
          ⟨false, some "Password must contain at least one number"⟩)
    ∧ (isValidEmail e = true ↔
      ∃ a b c : List Char, e.toList = a ++ '@' :: (b ++ '.' :: c) ∧
        a ≠ [] ∧ b ≠ [] ∧ c ≠ [] ∧
        (∀ ch ∈ a, jsWhitespace ch = false ∧ ch ≠ '@')
        ∧ (∀ ch ∈ b, jsWhitespace ch = false ∧ ch ≠ '@')
        ∧ (∀ ch ∈ c, jsWhitespace ch = false ∧ ch ≠ '@')) := by
  refine ⟨validateUsername_valid_iff u, ?_, ?_, ?_,
    validatePassword_valid_iff pw, ?_, ?_, ?_, ?_, isValidEmail_iff e⟩
  · intro h
    simp [validateUsername, h]
  · intro ha hb
    simp [validateUsername, not_lt.mpr ha, hb]
  · intro ha hb hnall
    have hm : matchesUsernamePattern u = false := by
      rcases Bool.eq_false_or_eq_true (matchesUsernamePattern u) with h | h
      · exact absurd ((matchesUsernamePattern_iff u).mp h).2 hnall
      · exact h
    simp [validateUsername, not_lt.mpr ha, not_lt.mpr hb, hm]
  · intro h
    simp [validatePassword, h]
  · intro ha hnu
    have hf : pw.toList.any Char.isUpper = false := by
      rcases Bool.eq_false_or_eq_true (pw.toList.any Char.isUpper) with h | h
      · obtain ⟨c, hc, hcr⟩ := List.any_eq_true.mp h
        exact absurd ⟨c, hc, (isUpper_iff c).mp hcr⟩ hnu
      · exact h
    unfold validatePassword
    rw [if_neg (not_lt.mpr ha),
      if_pos (show (!pw.toList.any Char.isUpper) = true by rw [hf]; rfl)]
  · intro ha hu hnl
    have ht : pw.toList.any Char.isUpper = true := by
      obtain ⟨c, hc, hcr⟩ := hu
      exact List.any_eq_true.mpr ⟨c, hc, (isUpper_iff c).mpr hcr⟩
    have hf : pw.toList.any Char.isLower = false := by
      rcases Bool.eq_false_or_eq_true (pw.toList.any Char.isLower) with h | h
      · obtain ⟨c, hc, hcr⟩ := List.any_eq_true.mp h
        exact absurd ⟨c, hc, (isLower_iff c).mp hcr⟩ hnl
      · exact h
    unfold validatePassword
    rw [if_neg (not_lt.mpr ha),
      if_neg (show ¬ (!pw.toList.any Char.isUpper) = true by rw [ht]; decide),
      if_pos (show (!pw.toList.any Char.isLower) = true by rw [hf]; rfl)]
  · intro ha hu hl hnd
    have ht : pw.toList.any Char.isUpper = true := by
      obtain ⟨c, hc, hcr⟩ := hu
      exact List.any_eq_true.mpr ⟨c, hc, (isUpper_iff c).mpr hcr⟩
    have ht2 : pw.toList.any Char.isLower = true := by
      obtain ⟨c, hc, hcr⟩ := hl
      exact List.any_eq_true.mpr ⟨c, hc, (isLower_iff c).mpr hcr⟩
    have hf : pw.toList.any Char.isDigit = false := by
      rcases Bool.eq_false_or_eq_true (pw.toList.any Char.isDigit) with h | h
      · obtain ⟨c, hc, hcr⟩ := List.any_eq_true.mp h
        exact absurd ⟨c, hc, (isDigit_iff c).mp hcr⟩ hnd
      · exact h
    unfold validatePassword
    rw [if_neg (not_lt.mpr ha),
      if_neg (show ¬ (!pw.toList.any Char.isUpper) = true by rw [ht]; decide),
      if_neg (show ¬ (!pw.toList.any Char.isLower) = true by rw [ht2]; decide),
      if_pos (show (!pw.toList.any Char.isDigit) = true by rw [hf]; rfl)]

/-- Witness for C6: the characterization evaluated at concrete inputs:
a valid username, a too-short username with its message, a valid
password, and a valid email. -/
theorem validators_characterize_witness :
    (validateUsername "good_name3").valid = true
    ∧ validateUsername "ab" = ⟨false, some "Username must be at least 3 characters"⟩
    ∧ (validatePassword "Passw0rd").valid = true
    ∧ isValidEmail "a@b.c" = true := by
  have h1 := validators_characterize "good_name3" "Passw0rd" "a@b.c"
  have h2 := validators_characterize "ab" "Passw0rd" "a@b.c"
  refine ⟨h1.1.mpr (by decide), h2.2.1 (by decide), h1.2.2.2.2.1.mpr (by decide), ?_⟩
  exact (h1.2.2.2.2.2.2.2.2.2).mpr
    ⟨['a'], ['b'], ['c'], by decide, by decide, by decide, by decide,
      by decide, by decide, by decide⟩

/-! ## Auth utilities

Embeds `signUp`, `login`, `logout`, `resetPassword`, `updatePassword`.
Each backend SDK call is modelled by its outcome, a `CallResult`: the
call either returns a response or throws (a JS `Error` carrying a
message, or some non-`Error` value). A utility is modelled as a pure
function from the call outcomes to the list of requests it issued plus
its own result, itself a `CallResult` since a JS function may throw. -/

/-- A backend auth user (opaque; only identity matters here). -/
structure AuthUser where
  id : String
deriving DecidableEq

/-- The error pair surfaced to the UI. -/
structure AuthError where
  message : String
  field : Option String
deriving DecidableEq

/-- Outcome of running a piece of JS code: a value, or a thrown value
(`some m` for an `Error` with message m, `none` for a non-`Error`). -/
inductive CallResult (α : Type) where
  | returns (val : α)
  | throws (errMsg : Option String)
deriving DecidableEq

/-- The requests a utility can issue to the backend. -/
inductive Request where
  | profileUsernameQuery (username : String)
  | authSignUpRequest (email password username displayName : String)
  | signInWithPassword (email password : String)
  | signOutRequest
  | resetPasswordForEmail (email : String)
  | updateUserRequest (newPassword : String)
deriving DecidableEq

/-- Input of `signUp`. -/
structure SignUpData where
  email : String
  password : String
  username : String
  displayName : String
deriving DecidableEq

/-- Input of `login`. -/
structure LoginData where
  email : String
  password : String
deriving DecidableEq

/-- Response of the profiles username query (`maybeSingle`): whether a
row came back, and the optional error as a (code, message) pair. -/
structure CheckResponse where
  found : Bool
  error : Option (String × String)
deriving DecidableEq

/-- Response of an auth call that yields `{ data: { user }, error }`. -/
structure AuthResponse where
  user : Option AuthUser
  error : Option String
deriving DecidableEq

/-- Outcomes of the two calls `signUp` may issue. -/
structure SignUpOutcome where
  check : CallResult CheckResponse
  create : CallResult AuthResponse
deriving DecidableEq

/-- `err instanceof Error ? err.message : 'An unknown error occurred'`. -/
def catchMessage : Option String → String
  | some m => m
  | none => "An unknown error occurred"

/-- The `catch` block of the utilities returning `{ user, error }`. -/
def tryCatchUser :
    CallResult (Option AuthUser × Option AuthError) →
    CallResult (Option AuthUser × Option AuthError)
  | .returns v => .returns v
  | .throws e => .returns (none, some { message := catchMessage e, field := none })

/-- The `catch` block of the utilities returning only `{ error }`. -/
def tryCatchErrOnly :
    CallResult (Option AuthError) → CallResult (Option AuthError)
  | .returns v => .returns v
  | .throws e => .returns (some { message := catchMessage e, field := none })

/-- Shared shape of handling an auth call response: a backend error is
surfaced as the error message, otherwise the user is returned. -/
def authRespBody (o : CallResult AuthResponse) :
    CallResult (Option AuthUser × Option AuthError) :=
  match o with
  | .throws e => .throws e
  | .returns ar =>
      match ar.error with
      | some msg => .returns (none, some { message := msg, field := none })
      | none => .returns (ar.user, none)

/-- Shared shape of handling a `{ error }` response. -/
def errOnlyBody (o : CallResult (Option String)) : CallResult (Option AuthError) :=
  match o with
  | .throws e => .throws e
  | .returns (some msg) => .returns (some { message := msg, field := none })
  | .returns none => .returns none

/-- The tail of `signUp` after the username check passed: issues the
auth sign-up request and handles its response. -/
def signUpCreate (d : SignUpData) (c : CallResult AuthResponse) :
    List Request × CallResult (Option AuthUser × Option AuthError) :=
  ([Request.profileUsernameQuery d.username,
    Request.authSignUpRequest d.email d.password d.username d.displayName],
   tryCatchUser (authRespBody c))

/-- `signUp`: queries profiles for the username; if a row exists it
fails with the taken message on the username field; a real query error
(code other than PGRST116) is surfaced; otherwise the auth sign-up call
is issued and handled; any throw is caught. -/
def signUp (d : SignUpData) (o : SignUpOutcome) :
    List Request × CallResult (Option AuthUser × Option AuthError) :=
  match o.check with
  | .throws e => ([Request.profileUsernameQuery d.username], tryCatchUser (.throws e))
  | .returns chk =>
      if chk.found then
        ([Request.profileUsernameQuery d.username],
         .returns (none, some { message := "Username already taken",
                                field := some "username" }))
      else
        match chk.error with
        | some (code, msg) =>
            if code ≠ "PGRST116" then
              ([Request.profileUsernameQuery d.username],
               .returns (none, some { message := msg, field := none }))
            else signUpCreate d o.create
        | none => signUpCreate d o.create

/-- `login`: one `signInWithPassword` call, error passed through. -/
def login (l : LoginData) (o : CallResult AuthResponse) :
    List Request × CallResult (Option AuthUser × Option AuthError) :=
  ([Request.signInWithPassword l.email l.password], tryCatchUser (authRespBody o))

/-- `logout`: one `signOut` call, error passed through. -/
def logout (o : CallResult (Option String)) :
    List Request × CallResult (Option AuthError) :=
  ([Request.signOutRequest], tryCatchErrOnly (errOnlyBody o))

/-- `resetPassword`: one `resetPasswordForEmail` call, error passed through. -/
def resetPassword (email : String) (o : CallResult (Option String)) :
    List Request × CallResult (Option AuthError) :=
  ([Request.resetPasswordForEmail email], tryCatchErrOnly (errOnlyBody o))

/-- `updatePassword`: one `updateUser` call, error passed through. -/
def updatePassword (newPassword : String) (o : CallResult (Option String)) :
    List Request × CallResult (Option AuthError) :=
  ([Request.updateUserRequest newPassword], tryCatchErrOnly (errOnlyBody o))

/-- Concrete signup input used by witnesses and counterexamples. -/
def sdEx : SignUpData :=
  { email := "a@b.c", password := "Passw0rd", username := "alice",
    displayName := "Alice" }

/-- Outcome where the username is free and account creation succeeds. -/
def soEx : SignUpOutcome :=
  { check := .returns { found := false, error := none },
    create := .returns { user := some { id := "uid-1" }, error := none } }

/-- Outcome where the username is already taken. -/
def soTakenEx : SignUpOutcome :=
  { check := .returns { found := true, error := none },
    create := .returns { user := some { id := "uid-1" }, error := none } }

theorem tryCatchUser_returns (x : CallResult (Option AuthUser × Option AuthError)) :
    ∃ v, tryCatchUser x = CallResult.returns v := by
  cases x with
  | returns v => exact ⟨v, rfl⟩
  | throws e => exact ⟨_, rfl⟩

theorem tryCatchErrOnly_returns (x : CallResult (Option AuthError)) :
    ∃ v, tryCatchErrOnly x = CallResult.returns v := by
  cases x with
  | returns v => exact ⟨v, rfl⟩
  | throws e => exact ⟨_, rfl⟩

/-- C5 counterexample: on a successful signup (username free, account
created), `signUp` issues two backend requests, not exactly one — the
username-availability query on profiles and the auth sign-up call. -/
theorem auth_single_request_counterexample :
    (signUp sdEx soEx).1 =
      [Request.profileUsernameQuery "alice",
       Request.authSignUpRequest "a@b.c" "Passw0rd" "alice" "Alice"]
    ∧ (signUp sdEx soEx).1.length ≠ 1 := by
  constructor
  · rfl
  · decide

/-- C5 (amended): no auth utility ever throws — every outcome of the
backend calls, thrown exceptions included, is turned into a returned
value; no call is retried: `login`, `logout`, `resetPassword` and
`updatePassword` issue exactly one request, and `signUp` issues the
username query and at most one sign-up call; a backend error message is
passed through unchanged, with a null user and no field, and on backend
success the error is null. -/
theorem auth_utilities_amended
    (d : SignUpData) (l : LoginData) (em npw : String)
    (o : SignUpOutcome) (lo : CallResult AuthResponse)
    (so ro uo : CallResult (Option String)) :
    (∃ v, (signUp d o).2 = CallResult.returns v)
    ∧ (∃ v, (login l lo).2 = CallResult.returns v)
    ∧ (∃ v, (logout so).2 = CallResult.returns v)
    ∧ (∃ v, (resetPassword em ro).2 = CallResult.returns v)
    ∧ (∃ v, (updatePassword npw uo).2 = CallResult.returns v)
    ∧ ((signUp d o).1 = [Request.profileUsernameQuery d.username]
        ∨ (signUp d o).1 = [Request.profileUsernameQuery d.username,
            Request.authSignUpRequest d.email d.password d.username d.displayName])
    ∧ (login l lo).1 = [Request.signInWithPassword l.email l.password]
    ∧ (logout so).1 = [Request.signOutRequest]
    ∧ (resetPassword em ro).1 = [Request.resetPasswordForEmail em]
    ∧ (updatePassword npw uo).1 = [Request.updateUserRequest npw]
    ∧ (∀ u2 msg, lo = CallResult.returns ⟨u2, some msg⟩ →
        (login l lo).2 =
          CallResult.returns (none, some { message := msg, field := none }))
    ∧ (∀ u2, lo = CallResult.returns ⟨u2, none⟩ →
        (login l lo).2 = CallResult.returns (u2, none))
    ∧ (∀ msg, so = CallResult.returns (some msg) →
        (logout so).2 =
          CallResult.returns (some { message := msg, field := none }))
    ∧ (so = CallResult.returns none → (logout so).2 = CallResult.returns none)
    ∧ (∀ msg, ro = CallResult.returns (some msg) →
        (resetPassword em ro).2 =
          CallResult.returns (some { message := msg, field := none }))
    ∧ (ro = CallResult.returns none →
        (resetPassword em ro).2 = CallResult.returns none)
    ∧ (∀ msg, uo = CallResult.returns (some msg) →
        (updatePassword npw uo).2 =
          CallResult.returns (some { message := msg, field := none }))
    ∧ (uo = CallResult.returns none →
        (updatePassword npw uo).2 = CallResult.returns none)
    ∧ (∀ chk u2 msg, o.check = CallResult.returns chk → chk.found = false →
        chk.error = none → o.create = CallResult.returns ⟨u2, some msg⟩ →
        (signUp d o).2 =
          CallResult.returns (none, some { message := msg, field := none }))
    ∧ (∀ chk u2, o.check = CallResult.returns chk → chk.found = false →
        chk.error = none → o.create = CallResult.returns ⟨u2, none⟩ →
        (signUp d o).2 = CallResult.returns (u2, none)) := by
  refine ⟨?_, tryCatchUser_returns _, tryCatchErrOnly_returns _,
    tryCatchErrOnly_returns _, tryCatchErrOnly_returns _,
    ?_, rfl, rfl, rfl, rfl, ?_, ?_, ?_, ?_, ?_, ?_, ?_, ?_, ?_, ?_⟩
  · cases hchk : o.check with
    | throws e =>
      exact ⟨(none, some { message := catchMessage e, field := none }),
        by simp [signUp, hchk, tryCatchUser]⟩
    | returns chk =>
      by_cases hf : chk.found
      · refine ⟨(none, some { message := "Username already taken", field := some "username" }), ?_⟩
        simp [signUp, hchk, hf]
      · cases herr : chk.error with
        | none =>
          obtain ⟨v, hv⟩ := tryCatchUser_returns (authRespBody o.create)
          exact ⟨v, by simp [signUp, hchk, hf, herr, signUpCreate]; exact hv⟩
        | some ce =>
          obtain ⟨code, msg⟩ := ce
          by_cases hcode : code = "PGRST116"
          · obtain ⟨v, hv⟩ := tryCatchUser_returns (authRespBody o.create)
            exact ⟨v, by simp [signUp, hchk, hf, herr, hcode, signUpCreate]; exact hv⟩
          · exact ⟨(none, some { message := msg, field := none }),
              by simp [signUp, hchk, hf, herr, hcode]⟩
  · cases hchk : o.check with
    | throws e => exact Or.inl (by simp [signUp, hchk])
    | returns chk =>
      by_cases hf : chk.found
      · exact Or.inl (by simp [signUp, hchk, hf])
      · cases herr : chk.error with
        | none => exact Or.inr (by simp [signUp, hchk, hf, herr, signUpCreate])
        | some ce =>
          obtain ⟨code, msg⟩ := ce
          by_cases hcode : code = "PGRST116"
          · exact Or.inr (by simp [signUp, hchk, hf, herr, hcode, signUpCreate])
          · exact Or.inl (by simp [signUp, hchk, hf, herr, hcode])
  · rintro u2 msg rfl
    simp [login, authRespBody, tryCatchUser]
  · rintro u2 rfl
    simp [login, authRespBody, tryCatchUser]
  · rintro msg rfl
    simp [logout, errOnlyBody, tryCatchErrOnly]
  · rintro rfl
    simp [logout, errOnlyBody, tryCatchErrOnly]
  · rintro msg rfl
    simp [resetPassword, errOnlyBody, tryCatchErrOnly]
  · rintro rfl
    simp [resetPassword, errOnlyBody, tryCatchErrOnly]
  · rintro msg rfl
    simp [updatePassword, errOnlyBody, tryCatchErrOnly]
  · rintro rfl
    simp [updatePassword, errOnlyBody, tryCatchErrOnly]
  · intro chk u2 msg hchk hf herr hcr
    simp [signUp, hchk, hf, herr, signUpCreate, hcr, authRespBody, tryCatchUser]
  · intro chk u2 hchk hf herr hcr
    simp [signUp, hchk, hf, herr, signUpCreate, hcr, authRespBody, tryCatchUser]

/-- Concrete login input used by witnesses. -/
def lEx : LoginData := { email := "a@b.c", password := "Passw0rd" }

/-- Witness for C5 (amended): a failed login passes the backend message
through unchanged with a null user. -/
theorem auth_utilities_amended_witness :
    (login lEx
      (CallResult.returns { user := none, error := some "Invalid login credentials" })).2
      = CallResult.returns
          (none, some { message := "Invalid login credentials", field := none }) :=
  (auth_utilities_amended sdEx lEx "a@b.c" "NewPassw0rd" soEx
    (CallResult.returns { user := none, error := some "Invalid login credentials" })
    (CallResult.returns none) (CallResult.returns none)
    (CallResult.returns none)).2.2.2.2.2.2.2.2.2.2.1 none "Invalid login credentials" rfl

/-- C10: when the username query finds an existing profile, `signUp`
returns the taken message on the username field and its request list is
only the profiles query — the auth account-creation call is never
issued; and over all outcomes, this username check is the only path in
the auth utilities whose error carries a populated field. -/
theorem signup_username_taken_only_field_path
    (d : SignUpData) (l : LoginData) (em npw : String)
    (o o' : SignUpOutcome) (lo : CallResult AuthResponse)
    (so ro uo : CallResult (Option String)) (chk : CheckResponse)
    (hc : o.check = CallResult.returns chk) (hf : chk.found = true) :
    signUp d o = ([Request.profileUsernameQuery d.username],
      CallResult.returns
        (none, some { message := "Username already taken", field := some "username" }))
    ∧ (∀ u err, (signUp d o').2 = CallResult.returns (u, some err) →
        err.field ≠ none →
        (err = { message := "Username already taken", field := some "username" }
          ∧ ∃ chk2, o'.check = CallResult.returns chk2 ∧ chk2.found = true))
    ∧ (∀ u err, (login l lo).2 = CallResult.returns (u, some err) → err.field = none)
    ∧ (∀ err, (logout so).2 = CallResult.returns (some err) → err.field = none)
    ∧ (∀ err, (resetPassword em ro).2 = CallResult.returns (some err) → err.field = none)
    ∧ (∀ err, (updatePassword npw uo).2 = CallResult.returns (some err) → err.field = none) := by
  refine ⟨by simp [signUp, hc, hf], ?_, ?_, ?_, ?_, ?_⟩
  · intro u err h hfld
    cases hchk : o'.check with
    | throws e =>
      simp [signUp, hchk, tryCatchUser] at h
      obtain ⟨-, h2⟩ := h
      subst h2
      exact absurd rfl hfld
    | returns chk2 =>
      by_cases hf2 : chk2.found
      · simp [signUp, hchk, hf2] at h
        obtain ⟨-, h2⟩ := h
        subst h2
        exact ⟨rfl, chk2, rfl, hf2⟩
      · have hcreate : (signUp d o').2 = tryCatchUser (authRespBody o'.create) →
            False := by
          intro heq
          rw [heq] at h
          cases hcr : o'.create with
          | throws e =>
            simp [tryCatchUser, authRespBody, hcr] at h
            obtain ⟨-, h2⟩ := h
            subst h2
            exact absurd rfl hfld
          | returns ar =>
            cases herr2 : ar.error with
            | some msg =>
              simp [tryCatchUser, authRespBody, hcr, herr2] at h
              obtain ⟨-, h2⟩ := h
              subst h2
              exact absurd rfl hfld
            | none =>
              simp [tryCatchUser, authRespBody, hcr, herr2] at h
        cases herr : chk2.error with
        | none =>
          exact absurd (by simp [signUp, hchk, hf2, herr, signUpCreate]) hcreate
        | some ce =>
          obtain ⟨code, msg⟩ := ce
          by_cases hcode : code = "PGRST116"
          · exact absurd (by simp [signUp, hchk, hf2, herr, hcode, signUpCreate]) hcreate
          · simp [signUp, hchk, hf2, herr, hcode] at h
            obtain ⟨-, h2⟩ := h
            subst h2
            exact absurd rfl hfld
  · intro u err h
    cases hlo : lo with
    | throws e =>
      simp [login, hlo, tryCatchUser, authRespBody] at h
      obtain ⟨-, h2⟩ := h
      subst h2
      rfl
    | returns ar =>
      cases herr : ar.error with
      | some msg =>
        simp [login, hlo, tryCatchUser, authRespBody, herr] at h
        obtain ⟨-, h2⟩ := h
        subst h2
        rfl
      | none =>
        simp [login, hlo, tryCatchUser, authRespBody, herr] at h
  · intro err h
    cases hso : so with
    | throws e =>
      simp [logout, hso, tryCatchErrOnly, errOnlyBody] at h
      subst h
      rfl
    | returns om =>
      cases om with
      | some msg =>
        simp [logout, hso, tryCatchErrOnly, errOnlyBody] at h
        subst h
        rfl
      | none =>
        simp [logout, hso, tryCatchErrOnly, errOnlyBody] at h
  · intro err h
    cases hro : ro with
    | throws e =>
      simp [resetPassword, hro, tryCatchErrOnly, errOnlyBody] at h
      subst h
      rfl
    | returns om =>
      cases om with
      | some msg =>
        simp [resetPassword, hro, tryCatchErrOnly, errOnlyBody] at h
        subst h
        rfl
      | none =>
        simp [resetPassword, hro, tryCatchErrOnly, errOnlyBody] at h
  · intro err h
    cases huo : uo with
    | throws e =>
      simp [updatePassword, huo, tryCatchErrOnly, errOnlyBody] at h
      subst h
      rfl
    | returns om =>
      cases om with
      | some msg =>
        simp [updatePassword, huo, tryCatchErrOnly, errOnlyBody] at h
        subst h
        rfl
      | none =>
        simp [updatePassword, huo, tryCatchErrOnly, errOnlyBody] at h

/-- Witness for C10: the concrete taken-username outcome yields the
taken error on the username field without an auth request. -/
theorem signup_username_taken_witness :
    signUp sdEx soTakenEx = ([Request.profileUsernameQuery "alice"],
      CallResult.returns
        (none, some { message := "Username already taken", field := some "username" })) :=
  (signup_username_taken_only_field_path sdEx lEx "a@b.c" "NewPassw0rd"
    soTakenEx soEx (CallResult.returns { user := none, error := none })
    (CallResult.returns none) (CallResult.returns none) (CallResult.returns none)
    { found := true, error := none } rfl rfl).1

/-! ## Auth-state hooks

The redirect effects of `useRequireAuth` and
`useRedirectIfAuthenticated`: both hooks read the (user, loading) state
from `useUser` and their effect conditionally calls `router.push`. The
effect is embedded as a function from the observed state to the
navigation it triggers (`none` when it does not navigate). -/

/-- The default of the `redirectTo` parameter of `useRedirectIfAuthenticated`. -/
def defaultRedirectTo : String := "/dashboard"

/-- Effect body of `useRequireAuth`:
`if (!loading && !user) router.push('/auth/login')`. -/
def useRequireAuthNav (user : Option AuthUser) (loading : Bool) : Option String :=
  if !loading && user.isNone then some "/auth/login" else none

/-- Effect body of `useRedirectIfAuthenticated`:
`if (!loading && user) router.push(redirectTo)`. -/
def useRedirectIfAuthenticatedNav (user : Option AuthUser) (loading : Bool)
    (redirectTo : String) : Option String :=
  if !loading && user.isSome then some redirectTo else none

/-- C7: neither hook navigates while loading; once loading is false,
`useRedirectIfAuthenticated` navigates to its target (default
"/dashboard") exactly when a user is present, and `useRequireAuth`
navigates to "/auth/login" exactly when no user is present. -/
theorem auth_hooks_redirect (user : Option AuthUser) (loading : Bool)
    (target : String) :
    (loading = true → useRequireAuthNav user loading = none
      ∧ useRedirectIfAuthenticatedNav user loading target = none)
    ∧ (useRequireAuthNav user loading = some "/auth/login" ↔
        (loading = false ∧ user = none))
    ∧ (∀ nav, useRequireAuthNav user loading = some nav → nav = "/auth/login")
    ∧ (useRedirectIfAuthenticatedNav user loading target = some target ↔
        (loading = false ∧ ∃ u, user = some u))
    ∧ (∀ nav, useRedirectIfAuthenticatedNav user loading target = some nav →
        nav = target)
    ∧ defaultRedirectTo = "/dashboard" := by
  cases loading with
  | true =>
    refine ⟨?_, ?_, ?_, ?_, ?_, ?_⟩ <;>
      simp [useRequireAuthNav, useRedirectIfAuthenticatedNav, defaultRedirectTo]
  | false =>
    cases user with
    | none =>
      refine ⟨?_, ?_, ?_, ?_, ?_, ?_⟩ <;>
        simp [useRequireAuthNav, useRedirectIfAuthenticatedNav, defaultRedirectTo]
    | some u =>
      refine ⟨?_, ?_, ?_, ?_, ?_, ?_⟩ <;>
        simp [useRequireAuthNav, useRedirectIfAuthenticatedNav, defaultRedirectTo]

/-- Witness for C7: with loading finished and no user, `useRequireAuth`
navigates to the login page; while loading with a user present, the
redirect hook stays put. -/
theorem auth_hooks_redirect_witness :
    useRequireAuthNav none false = some "/auth/login"
    ∧ useRedirectIfAuthenticatedNav (some { id := "uid-1" }) true
        defaultRedirectTo = none :=
  ⟨(auth_hooks_redirect none false defaultRedirectTo).2.1.mpr ⟨rfl, rfl⟩,
   ((auth_hooks_redirect (some { id := "uid-1" }) true defaultRedirectTo).1 rfl).2⟩

end LoreFit
